import Mathlib

/-!
Verification of the productivity-bot core subsystem: a shallow embedding of
the slot finder (`calendar_integration.find_free_slots`), the bidirectional
calendar/task sync (`calendar_sync`), the vault index rebuild
(`obsidian_sync`), the conversation-session manager (`conversation`) and the
notification escalation checks (`notifications`), together with proofs and
refutations of the specified properties.

Modelling conventions:
* Wall-clock timestamps handled as Python `datetime` values are embedded as a
  `DateTime` record of calendar fields at second granularity; `datetime`
  comparison and subtraction go through `DateTime.toSeconds` (days via the
  standard civil-calendar formula), which agrees with Python's field-wise
  comparison on in-range values.  The slot finder performs pure wall-clock
  arithmetic on timezone-pinned values, so its timeline is embedded directly
  as minutes since an epoch placed at a Monday midnight.
* SQLite tables are embedded as Lean lists of row records; `SELECT ... WHERE
  key = ?` with `fetchone` is `List.find?`, `UPDATE ... WHERE key = ?` is a
  `List.map` touching the matching rows, `INSERT` is list append.  No
  uniqueness constraints are enforced on insert, following the spec's "no
  uniqueness constraint beyond natural key" note for the side tables.
* Python exceptions are `Except Unit`; a caught-and-logged exception is the
  handler's value, an uncaught one is `Except.error ()`.
* Python truthiness of a nullable string column is `truthyStr`.
-/

namespace ProductivityBot

/-! ### Time model -/

/-- A wall-clock timestamp at second granularity, as carried by a Python
`datetime` value (microseconds are below the granularity any verified
property depends on). -/
structure DateTime where
  year : Nat
  month : Nat
  day : Nat
  hour : Nat
  minute : Nat
  second : Nat
deriving DecidableEq

/-- Days elapsed since the start of era 0 of the proleptic Gregorian
calendar (civil-from-days formula); defined for years `≥ 1`, the range
`fromisoformat` validates. -/
def daysSinceEra (y m d : Nat) : Nat :=
  let y' := if m ≤ 2 then y - 1 else y
  let era := y' / 400
  let yoe := y' % 400
  let mp := (m + 9) % 12
  let doy := (153 * mp + 2) / 5 + d - 1
  let doe := yoe * 365 + yoe / 4 - yoe / 100 + doy
  era * 146097 + doe

/-- Absolute second count of a `DateTime`; Python `datetime` comparison and
subtraction are embedded through this value. -/
def DateTime.toSeconds (t : DateTime) : Nat :=
  daysSinceEra t.year t.month t.day * 86400
    + t.hour * 3600 + t.minute * 60 + t.second

/-- `(now - sent).total_seconds() / 60` from the escalation checks: elapsed
minutes as an exact rational. -/
def elapsedMinutes (now sent : DateTime) : ℚ :=
  (((now.toSeconds : ℤ) - (sent.toSeconds : ℤ) : ℤ) : ℚ) / 60

/-! Python's string primitives (`split`, `startswith`, `strip`,
`replace`) are embedded by structurally recursive char-list functions so
that every use is evaluable; they agree with the library operations on
all inputs with non-empty separators. -/

/-- Does the first list occur as a prefix of the second? -/
def startsWithChars : List Char → List Char → Bool
  | [], _ => true
  | _ :: _, [] => false
  | p :: ps, c :: cs => p == c && startsWithChars ps cs

/-- Worker for `pySplitOn`: scan left to right, consuming the separator
at each occurrence; the fuel (initially `length + 1`) bounds the number
of steps, each of which consumes at least one character. -/
def pySplitGo (sep : List Char) : Nat → List Char → List Char →
    List (List Char)
  | 0, l, cur => [cur.reverse ++ l]
  | _ + 1, [], cur => [cur.reverse]
  | fuel + 1, c :: cs, cur =>
    if startsWithChars sep (c :: cs) then
      cur.reverse :: pySplitGo sep fuel (List.drop sep.length (c :: cs)) []
    else
      pySplitGo sep fuel cs (c :: cur)

/-- Python `s.split(sep)` for a non-empty separator. -/
def pySplitOn (s sep : String) : List String :=
  (pySplitGo sep.data (s.data.length + 1) s.data []).map String.mk

/-- Joiner for `pyReplace`. -/
def joinChars (sep : List Char) : List (List Char) → List Char
  | [] => []
  | [l] => l
  | l :: ls => l ++ sep ++ joinChars sep ls

/-- Python `s.replace(pat, rep)` for a non-empty pattern: split on the
pattern and re-join with the replacement. -/
def pyReplace (s pat rep : String) : String :=
  String.mk (joinChars rep.data (pySplitGo pat.data (s.data.length + 1)
    s.data []))

/-- The whitespace characters Python's `str.strip()` removes (the forms
that can occur in the strings this program strips). -/
def isPySpace (c : Char) : Bool :=
  c == ' ' || c == '\t' || c == '\n' || c == '\r'

/-- Python `s.strip()`. -/
def pyStrip (s : String) : String :=
  String.mk (((s.data.dropWhile isPySpace).reverse.dropWhile
    isPySpace).reverse)

/-- Python `s.startswith(pre)`. -/
def pyStartsWith (s pre : String) : Bool :=
  startsWithChars pre.data s.data

/-- Decimal value of a digit list. -/
def charsToNatGo : Nat → List Char → Nat
  | acc, [] => acc
  | acc, c :: cs => charsToNatGo (acc * 10 + (c.toNat - 48)) cs

/-- Parse a fixed-width decimal field of an ISO timestamp. -/
def parseFixedNat (l : List Char) (len : Nat) : Option Nat :=
  if l.length = len ∧ l.all Char.isDigit then some (charsToNatGo 0 l)
  else none

/-- Python's `datetime.fromisoformat`, modelled for the
`YYYY-MM-DDTHH:MM:SS[.ffffff]` shape that `datetime.isoformat()` produces
(the only shape the program ever stores); any other string fails to parse,
which in the source raises `ValueError`.  Fractional seconds are accepted
and dropped. -/
def fromisoformat (s : String) : Option DateTime :=
  match pySplitOn s "T" with
  | [datePart, timePart] =>
    match pySplitOn datePart "-" with
    | [ys, ms, ds] =>
      match pySplitOn timePart ":" with
      | [hs, mis, ss] =>
        match parseFixedNat ys.data 4, parseFixedNat ms.data 2,
              parseFixedNat ds.data 2, parseFixedNat hs.data 2,
              parseFixedNat mis.data 2,
              parseFixedNat ((pySplitOn ss ".").headD ss).data 2 with
        | some y, some mo, some d, some h, some mi, some sec =>
          if 1 ≤ y ∧ 1 ≤ mo ∧ mo ≤ 12 ∧ 1 ≤ d ∧ d ≤ 31 ∧
             h ≤ 23 ∧ mi ≤ 59 ∧ sec ≤ 59 then
            some ⟨y, mo, d, h, mi, sec⟩
          else none
        | _, _, _, _, _, _ => none
      | _ => none
    | _ => none
  | _ => none

/-- Python truthiness of a nullable string column: `NULL` and `''` are
falsy, every other string is truthy. -/
def truthyStr (o : Option String) : Bool :=
  match o with
  | none => false
  | some s => decide (s ≠ "")

/-- Python `f"{x}"` on a nullable string value: `None` renders as the
literal string `"None"`. -/
def pyStr (o : Option String) : String :=
  match o with
  | none => "None"
  | some s => s

/-! ### Notification escalation (`notifications.py`) -/

/-- A row of the `notifications` table. -/
structure NotificationRow where
  id : String
  type : String
  scheduled_for : String
  sent_at : Option String
  acknowledged_at : Option String
  response_summary : Option String
deriving DecidableEq

/-- `NotificationManager.get_notification`: `SELECT * FROM notifications
WHERE id = ?`, first row or `None`. -/
def get_notification (db : List NotificationRow) (nid : String) :
    Option NotificationRow :=
  db.find? (fun n => n.id = nid)

/-- `NotificationManager.needs_escalation`.  `datetime.now()` is the `now`
argument; an unparseable `sent_at` makes `datetime.fromisoformat` raise,
embedded as `Except.error ()`. -/
def needs_escalation (db : List NotificationRow) (nid : String)
    (now : DateTime) : Except Unit Bool :=
  match get_notification db nid with
  | none => .ok false
  | some n =>
    if truthyStr n.acknowledged_at then .ok false
    else
      match n.sent_at with
      | none => .ok false
      | some s =>
        if s = "" then .ok false
        else
          match fromisoformat s with
          | none => .error ()
          | some sent => .ok (decide (5 ≤ elapsedMinutes now sent))

/-- The final priority ladder of `get_escalation_priority` as a function of
elapsed minutes. -/
def priorityOfElapsed (e : ℚ) : String :=
  if e < 5 then "default" else if e < 10 then "high" else "urgent"

/-- `NotificationManager.get_escalation_priority`; same conventions as
`needs_escalation`. -/
def get_escalation_priority (db : List NotificationRow) (nid : String)
    (now : DateTime) : Except Unit String :=
  match get_notification db nid with
  | none => .ok "default"
  | some n =>
    match n.sent_at with
    | none => .ok "default"
    | some s =>
      if s = "" then .ok "default"
      else if truthyStr n.acknowledged_at then .ok "default"
      else
        match fromisoformat s with
        | none => .error ()
        | some sent => .ok (priorityOfElapsed (elapsedMinutes now sent))

/-- Numeric rank of the escalation priorities, for the monotonicity
property of the spec. -/
def priorityRank (p : String) : Nat :=
  if p = "default" then 0 else if p = "high" then 1 else 2

/-! ### Conversation sessions (`conversation.py`) -/

/-- A row of the `bot_sessions` table; timestamp columns are stored as
`isoformat` strings, an exact round trip of the `DateTime` values written
by `create_session`/`add_message`, so they are embedded as `DateTime`
directly. -/
structure SessionRow where
  session_id : String
  telegram_user_id : Int
  telegram_chat_id : Int
  created_at : DateTime
  updated_at : DateTime
  expires_at : DateTime
  context_type : String
  context_data : Option String
  message_count : Nat
deriving DecidableEq

/-- A row of the `conversation_messages` table. -/
structure MessageRow where
  id : String
  session_id : String
  role : String
  content : String
  created_at : DateTime
deriving DecidableEq

/-- The conversation store: the two tables touched by
`ConversationManager`. -/
structure ConvState where
  sessions : List SessionRow
  messages : List MessageRow
deriving DecidableEq

/-- `ConversationManager.get_session`: look up by primary key, then return
`None` when `datetime.now() > expires_at` (strict comparison in the
source).  The `context_data` JSON decode does not alter any field a
verified property reads, so the row is returned as stored. -/
def get_session (st : ConvState) (sid : String) (now : DateTime) :
    Option SessionRow :=
  match st.sessions.find? (fun r => r.session_id = sid) with
  | none => none
  | some row =>
    if row.expires_at.toSeconds < now.toSeconds then none else some row

/-- `ConversationManager.add_message`: insert one message row, then
`UPDATE bot_sessions SET message_count = message_count + 1, updated_at = ?
WHERE session_id = ?`. -/
def add_message (st : ConvState) (sid role content message_id : String)
    (now : DateTime) : ConvState :=
  { st with
    messages := st.messages ++ [⟨message_id, sid, role, content, now⟩],
    sessions := st.sessions.map (fun r =>
      if r.session_id = sid then
        { r with message_count := r.message_count + 1, updated_at := now }
      else r) }

/-- `ConversationManager.is_at_message_limit`; `max_messages` is the
manager's configuration field. -/
def is_at_message_limit (max_messages : Nat) (st : ConvState)
    (sid : String) (now : DateTime) : Bool :=
  match get_session st sid now with
  | none => true
  | some s => decide (max_messages ≤ s.message_count)

/-! ### Free/busy slot finder (`calendar_integration.find_free_slots`)

The finder's arithmetic acts on timezone-pinned wall-clock values, embedded
as minutes since an epoch placed at midnight of a Monday (`weekdayOf 0 = 0`,
Python's Monday).  `replace(hour=h, minute=0, second=0, microsecond=0)` is
`atHour`, `timedelta(days=1)` is `+ 1440`, `timedelta(minutes=m)` is `+ m`.
Busy periods (already merged across calendars and sorted by the source
before the loop) are `(start, end)` pairs on the same timeline. -/

/-- Calendar day index of a timeline minute. -/
def dayOf (t : Nat) : Nat := t / 1440

/-- `datetime.hour` of a timeline minute. -/
def hourOf (t : Nat) : Nat := t % 1440 / 60

/-- `datetime.minute` of a timeline minute. -/
def minuteOf (t : Nat) : Nat := t % 60

/-- `datetime.weekday()` of a timeline minute: the epoch day is a Monday
(= 0); Saturday is 5, Sunday 6. -/
def weekdayOf (t : Nat) : Nat := dayOf t % 7

/-- `t.replace(hour=h, minute=0, second=0, microsecond=0)`. -/
def atHour (t h : Nat) : Nat := dayOf t * 1440 + h * 60

/-- A returned slot dictionary (`start`, `end`, `duration_minutes`; the
redundant `start_iso`/`end_iso` strings are not carried). -/
structure FreeSlot where
  start : Nat
  stop : Nat
  duration_minutes : Nat
deriving DecidableEq

/-- One step of the `while current_time < time_max and len(free_slots) <
max_slots` loop of `find_free_slots`, with explicit fuel standing for the
loop's own progress (every verified property is fuel-independent). -/
def findFreeSlotsGo (busy : List (Nat × Nat))
    (dur whs whe maxSlots tmax : Nat) :
    Nat → Nat → List FreeSlot → List FreeSlot
  | 0, _, acc => acc
  | fuel + 1, t, acc =>
    if t < tmax ∧ acc.length < maxSlots then
      if whs ≤ hourOf t ∧ whe ≤ hourOf t then
        findFreeSlotsGo busy dur whs whe maxSlots tmax fuel
          (atHour (t + 1440) whs) acc
      else
        let t1 := if hourOf t < whs then atHour t whs else t
        if 5 ≤ weekdayOf t1 then
          findFreeSlotsGo busy dur whs whe maxSlots tmax fuel
            (atHour (t1 + (7 - weekdayOf t1) * 1440) whs) acc
        else
          let sEnd := t1 + dur
          if whe < hourOf sEnd ∨ (hourOf sEnd = whe ∧ 0 < minuteOf sEnd) then
            findFreeSlotsGo busy dur whs whe maxSlots tmax fuel
              (atHour (t1 + 1440) whs) acc
          else
            match busy.find? (fun b =>
                decide (t1 < b.2) && decide (b.1 < sEnd)) with
            | some b =>
              findFreeSlotsGo busy dur whs whe maxSlots tmax fuel b.2 acc
            | none =>
              findFreeSlotsGo busy dur whs whe maxSlots tmax fuel (t1 + 15)
                (acc ++ [⟨t1, sEnd, dur⟩])
    else acc

/-- `CalendarIntegration.find_free_slots` after the free/busy query: the
busy-period pool is the input, the candidate walk is `findFreeSlotsGo`
starting from `time_min` with an empty accumulator. -/
def find_free_slots (busy : List (Nat × Nat)) (dur tmin tmax whs whe
    maxSlots fuel : Nat) : List FreeSlot :=
  findFreeSlotsGo busy dur whs whe maxSlots tmax fuel tmin []

/-! ### Tasks table and bidirectional sync (`calendar_sync.py`) -/

/-- A row of the `tasks` table (the relational projection of a vault task
document); all scalar columns are nullable strings as inserted by
`_index_tasks`. -/
structure TaskRow where
  id : Option String
  title : Option String
  status : Option String
  created_at : Option String
  updated_at : Option String
  due_date : Option String
  priority : Option String
  project_id : Option String
  project_name : Option String
  time_estimate_minutes : Option String
  time_estimate_source : Option String
  time_actual_minutes : Option String
  calendar_event_id : Option String
  scheduled_start : Option String
  scheduled_end : Option String
  context : Option String
  completed_at : Option String
  file_path : String
deriving DecidableEq

/-- A calendar event as read by the calendar→task pass: provider id,
description, and the `start`/`end` `dateTime` fields (absent for all-day
events). -/
structure CalEvent where
  id : String
  description : String
  startDT : Option String
  endDT : Option String
deriving DecidableEq

/-- `CalendarSync._extract_task_id`: first line starting with `Task ID:`,
then the text between the first and second occurrence of the marker,
stripped. -/
def extract_task_id (description : String) : Option String :=
  (pySplitOn description "\n").findSome? (fun line =>
    if pyStartsWith line "Task ID:" then
      match (pySplitOn line "Task ID:")[1]? with
      | some seg => some (pyStrip seg)
      | none => none
    else none)

/-- The `'Task ID:' in description` membership test. -/
def containsTaskID (description : String) : Bool :=
  decide (1 < (pySplitOn description "Task ID:").length)

/-- `datetime.fromisoformat(s.replace('Z', '+00:00')).isoformat()` as the
calendar→task pass applies it to the canonical RFC3339 timestamps of the
calendar API: the round trip rewrites a trailing `Z` to `+00:00` and
returns the string otherwise unchanged. -/
def isoRoundTrip (s : String) : String := pyReplace s "Z" "+00:00"

/-- Application of the `updates` dict built by the calendar→task pass to
one row of the `tasks` table: the `UPDATE ... WHERE id = ?` touches the
rows matching `tid`, setting exactly the fields the first matching row
(`task`) mismatched. -/
def apply_updates (tid ns ne eid : String) (task r : TaskRow) : TaskRow :=
  if r.id = some tid then
    { r with
      scheduled_start :=
        if task.scheduled_start ≠ some ns then some ns
        else r.scheduled_start,
      scheduled_end :=
        if task.scheduled_end ≠ some ne then some ne
        else r.scheduled_end,
      calendar_event_id :=
        if task.calendar_event_id ≠ some eid then some eid
        else r.calendar_event_id }
  else r

/-- The body of the per-event loop of
`CalendarSync.sync_calendar_to_tasks`: returns the updated `tasks` table
and the contribution to `updates_count`.  The parallel
`update_task_file` write mirrors the same `updates` dict into the vault
copy and is never read back during a pass, so only the relational row is
carried. -/
def sync_one_event (tasks : List TaskRow) (e : CalEvent) :
    List TaskRow × Nat :=
  if ¬ containsTaskID e.description then (tasks, 0)
  else
    match extract_task_id e.description with
    | none => (tasks, 0)
    | some tid =>
      if tid = "" then (tasks, 0)
      else
        match tasks.find? (fun r => r.id = some tid) with
        | none => (tasks, 0)
        | some task =>
          match e.startDT, e.endDT with
          | some es, some ee =>
            if es = "" ∨ ee = "" then (tasks, 0)
            else
              let ns := isoRoundTrip es
              let ne := isoRoundTrip ee
              if task.scheduled_start ≠ some ns ∨
                 task.scheduled_end ≠ some ne ∨
                 task.calendar_event_id ≠ some e.id then
                (tasks.map (apply_updates tid ns ne e.id task), 1)
              else (tasks, 0)
          | _, _ => (tasks, 0)

/-- `CalendarSync.sync_calendar_to_tasks` over an already-fetched event
window: fold the per-event body, accumulating `updates_count` (the
trailing sync-cursor write touches neither table). -/
def sync_calendar_to_tasks (events : List CalEvent)
    (tasks : List TaskRow) : List TaskRow × Nat :=
  events.foldl (fun st e =>
    let r := sync_one_event st.1 e
    (r.1, st.2 + r.2)) (tasks, 0)

/-- A calendar-side event as touched by the task→calendar pass: the
fields `update_event` merges (`summary`, `colorId`). -/
structure GCalEvent where
  id : String
  summary : String
  colorId : String
deriving DecidableEq

/-- `CalendarSync.sync_tasks_to_calendar`: scan the tasks with a non-null
`calendar_event_id`; a completed task with a truthy `completed_at`
rewrites its event's title and colour, a cancelled task deletes its
event.  A provider call on a missing event raises and is caught by the
per-task handler, which continues the loop without counting. -/
def sync_tasks_to_calendar (tasks : List TaskRow)
    (cal : List GCalEvent) : List GCalEvent × Nat :=
  (tasks.filter (fun r => r.calendar_event_id ≠ none)).foldl
    (fun st task =>
      match task.calendar_event_id with
      | none => st
      | some eid =>
        if task.status = some "completed" ∧ truthyStr task.completed_at then
          if (st.1.find? (fun ev => ev.id = eid)).isSome then
            (st.1.map (fun ev =>
              if ev.id = eid then
                { ev with summary := "✅ " ++ pyStr task.title,
                          colorId := "10" }
              else ev), st.2 + 1)
          else st
        else if task.status = some "cancelled" then
          if (st.1.find? (fun ev => ev.id = eid)).isSome then
            (st.1.filter (fun ev => ev.id ≠ eid), st.2 + 1)
          else st
        else st) (cal, 0)

/-- `CalendarSync.run_bidirectional_sync`: calendar→task first, then
task→calendar on the resulting tasks table; returns the two stores and
the reported `(calendar_to_tasks, tasks_to_calendar)` update counts. -/
def run_bidirectional_sync (events : List CalEvent)
    (tasks : List TaskRow) (cal : List GCalEvent) :
    (List TaskRow × List GCalEvent) × (Nat × Nat) :=
  let c2t := sync_calendar_to_tasks events tasks
  let t2c := sync_tasks_to_calendar c2t.1 cal
  ((c2t.1, t2c.1), (c2t.2, t2c.2))

/-- The task id an event contributes to the tasks table, when every
state-independent guard of the per-event body passes (marker present,
id extracted and non-empty, both `dateTime` fields present and truthy);
events without one never change any state. -/
def relevant_task_id (e : CalEvent) : Option String :=
  if ¬ containsTaskID e.description then none
  else
    match extract_task_id e.description with
    | none => none
    | some tid =>
      if tid = "" then none
      else
        match e.startDT, e.endDT with
        | some es, some ee => if es = "" ∨ ee = "" then none else some tid
        | _, _ => none

/-! ### Vault index builder (`obsidian_sync.py`)

A vault file is its path together with the result of `frontmatter.load`:
`none` stands for a malformed metadata header, on which the loader raises.
The discovery globs (`task-*.md` under `01-tasks` recursively,
`project-*.md` under `02-projects`, `person-*.md` under `03-people`,
`*.md` under `04-daily-logs`) are pre-applied to the vault's file lists; a
missing folder is an empty list.  Metadata scalars are nullable strings
(`post.get(key)`), the list-valued `tags`/`people_ids` default to `[]`. -/

/-- Parsed metadata header of a task file. -/
structure TaskMeta where
  id : Option String
  title : Option String
  status : Option String
  created_at : Option String
  updated_at : Option String
  due_date : Option String
  priority : Option String
  project_id : Option String
  project_name : Option String
  time_estimate_minutes : Option String
  time_estimate_source : Option String
  time_actual_minutes : Option String
  calendar_event_id : Option String
  scheduled_start : Option String
  scheduled_end : Option String
  context : Option String
  completed_at : Option String
  tags : List String
  people_ids : List String
deriving DecidableEq

/-- A discovered task file. -/
structure TaskFile where
  path : String
  meta : Option TaskMeta
deriving DecidableEq

/-- Parsed metadata header of a project file. -/
structure ProjectMeta where
  id : Option String
  title : Option String
  status : Option String
  created_at : Option String
  updated_at : Option String
  deadline : Option String
deriving DecidableEq

/-- A discovered project file. -/
structure ProjectFile where
  path : String
  meta : Option ProjectMeta
deriving DecidableEq

/-- Parsed metadata header of a person file. -/
structure PersonMeta where
  id : Option String
  name : Option String
  role : Option String
  company : Option String
  email : Option String
  phone : Option String
  created_at : Option String
  updated_at : Option String
  last_contact : Option String
  contact_frequency_days : Option String
deriving DecidableEq

/-- A discovered person file. -/
structure PersonFile where
  path : String
  meta : Option PersonMeta
deriving DecidableEq

/-- Parsed metadata header of a daily-log file. -/
structure DailyLogMeta where
  id : Option String
  date : Option String
  created_at : Option String
  morning_checkin_at : Option String
  evening_review_at : Option String
  total_planned_minutes : Option String
  total_actual_minutes : Option String
  energy_level_morning : Option String
  energy_level_evening : Option String
deriving DecidableEq

/-- A discovered daily-log candidate (`*.md` under `04-daily-logs`); the
indexer itself filters on the file name. -/
structure DailyLogFile where
  name : String
  path : String
  meta : Option DailyLogMeta
deriving DecidableEq

/-- A row of the `projects` table. -/
structure ProjectRow where
  id : Option String
  title : Option String
  status : Option String
  created_at : Option String
  updated_at : Option String
  deadline : Option String
  file_path : String
deriving DecidableEq

/-- A row of the `people` table. -/
structure PersonRow where
  id : Option String
  name : Option String
  role : Option String
  company : Option String
  email : Option String
  phone : Option String
  created_at : Option String
  updated_at : Option String
  last_contact : Option String
  contact_frequency_days : Option String
  file_path : String
deriving DecidableEq

/-- A row of the `daily_logs` table; `total_planned_minutes` and
`total_actual_minutes` are inserted with `post.get(key, 0)`, the integer
default rendered as `"0"`. -/
structure DailyLogRow where
  id : Option String
  date : Option String
  created_at : Option String
  morning_checkin_at : Option String
  evening_review_at : Option String
  total_planned_minutes : String
  total_actual_minutes : String
  energy_level_morning : Option String
  energy_level_evening : Option String
  file_path : String
deriving DecidableEq

/-- The vault directory tree, per discovery pattern. -/
structure Vault where
  taskFiles : List TaskFile
  projectFiles : List ProjectFile
  personFiles : List PersonFile
  dailyLogFiles : List DailyLogFile
deriving DecidableEq

/-- The relational store as touched by `rebuild_index`: the four entity
tables and the two task side tables. -/
structure DBState where
  tasks : List TaskRow
  projects : List ProjectRow
  people : List PersonRow
  daily_logs : List DailyLogRow
  task_tags : List (Option String × String)
  task_people : List (Option String × String)
deriving DecidableEq

/-- The empty relational store. -/
def emptyDB : DBState := ⟨[], [], [], [], [], []⟩

/-- The `tasks` row `_index_tasks` inserts for one parsed file. -/
def taskRowOf (path : String) (m : TaskMeta) : TaskRow :=
  { id := m.id, title := m.title, status := m.status,
    created_at := m.created_at, updated_at := m.updated_at,
    due_date := m.due_date, priority := m.priority,
    project_id := m.project_id, project_name := m.project_name,
    time_estimate_minutes := m.time_estimate_minutes,
    time_estimate_source := m.time_estimate_source,
    time_actual_minutes := m.time_actual_minutes,
    calendar_event_id := m.calendar_event_id,
    scheduled_start := m.scheduled_start,
    scheduled_end := m.scheduled_end, context := m.context,
    completed_at := m.completed_at, file_path := path }

/-- `ObsidianSync._index_tasks`: per file, load the header (raising on a
malformed one, with no per-file handler in the source), insert the task
row, then one `task_tags` row per tag and one `task_people` row per
referenced person. -/
def index_tasks : List TaskFile → DBState → Except Unit DBState
  | [], db => .ok db
  | f :: rest, db =>
    match f.meta with
    | none => .error ()
    | some m =>
      index_tasks rest
        { db with
          tasks := db.tasks ++ [taskRowOf f.path m],
          task_tags := db.task_tags ++ m.tags.map (fun tg => (m.id, tg)),
          task_people :=
            db.task_people ++ m.people_ids.map (fun p => (m.id, p)) }

/-- `ObsidianSync._index_projects`. -/
def index_projects : List ProjectFile → DBState → Except Unit DBState
  | [], db => .ok db
  | f :: rest, db =>
    match f.meta with
    | none => .error ()
    | some m =>
      index_projects rest
        { db with projects := db.projects ++
            [⟨m.id, m.title, m.status, m.created_at, m.updated_at,
              m.deadline, f.path⟩] }

/-- `ObsidianSync._index_people`. -/
def index_people : List PersonFile → DBState → Except Unit DBState
  | [], db => .ok db
  | f :: rest, db =>
    match f.meta with
    | none => .error ()
    | some m =>
      index_people rest
        { db with people := db.people ++
            [⟨m.id, m.name, m.role, m.company, m.email, m.phone,
              m.created_at, m.updated_at, m.last_contact,
              m.contact_frequency_days, f.path⟩] }

/-- `ObsidianSync._index_daily_logs`: only files whose name starts with
`"2"` (the dated `YYYY-MM-DD.md` shape) are opened and indexed. -/
def index_daily_logs : List DailyLogFile → DBState → Except Unit DBState
  | [], db => .ok db
  | f :: rest, db =>
    if pyStartsWith f.name "2" then
      match f.meta with
      | none => .error ()
      | some m =>
        index_daily_logs rest
          { db with daily_logs := db.daily_logs ++
              [⟨m.id, m.date, m.created_at, m.morning_checkin_at,
                m.evening_review_at, m.total_planned_minutes.getD "0",
                m.total_actual_minutes.getD "0", m.energy_level_morning,
                m.energy_level_evening, f.path⟩] }
    else index_daily_logs rest db

/-- `ObsidianSync.rebuild_index`: `DELETE FROM tasks / projects / people /
daily_logs` — the `task_tags` and `task_people` side tables are not
cleared by the source — then re-derive the tables by the four scans.  An
uncaught per-file parse failure aborts the rebuild (`Except.error`); the
uncommitted inserts of an aborted run are rolled back when the connection
closes, so only the result of a completed run is observable. -/
def rebuild_index (v : Vault) (db : DBState) : Except Unit DBState :=
  let wiped := { db with tasks := [], projects := [], people := [],
                         daily_logs := [] }
  (index_tasks v.taskFiles wiped).bind (fun db1 =>
    (index_projects v.projectFiles db1).bind (fun db2 =>
      (index_people v.personFiles db2).bind (fun db3 =>
        index_daily_logs v.dailyLogFiles db3)))

/-! ### Concrete fixtures for witnesses and counterexamples -/

/-- Noon on day 1 of year 1 (a Monday of the proleptic calendar). -/
def noonDay1 : DateTime := ⟨1, 1, 1, 12, 0, 0⟩

/-- A stored session whose `expires_at` is exactly `noonDay1`. -/
def sessionFixture : SessionRow :=
  { session_id := "s1", telegram_user_id := 12345,
    telegram_chat_id := 67890, created_at := ⟨1, 1, 1, 11, 30, 0⟩,
    updated_at := ⟨1, 1, 1, 11, 30, 0⟩, expires_at := noonDay1,
    context_type := "general", context_data := none, message_count := 0 }

/-- A conversation store holding `sessionFixture` and no messages. -/
def convFixture : ConvState := ⟨[sessionFixture], []⟩

/-- The timestamp of the fixture `add_message` call. -/
def addTime : DateTime := ⟨1, 1, 1, 11, 45, 0⟩

/-- A sent, unacknowledged notification with a well-formed `sent_at`. -/
def sentNotification : NotificationRow :=
  { id := "n1", type := "reminder",
    scheduled_for := "0001-01-01T10:00:00",
    sent_at := some "0001-01-01T10:00:00", acknowledged_at := none,
    response_summary := none }

/-- A tracked notification that was never sent (`sent_at` is `NULL`). -/
def unsentNotification : NotificationRow :=
  { sentNotification with id := "n2", sent_at := none }

/-- A notification whose `sent_at` holds an unparseable timestamp. -/
def malformedNotification : NotificationRow :=
  { sentNotification with id := "n3", sent_at := some "garbage" }

/-- The time of the fixture escalation check: six minutes after
`sentNotification` was sent. -/
def checkTime : DateTime := ⟨1, 1, 1, 10, 6, 0⟩

/-- Metadata of a single well-formed task file carrying one tag. -/
def taggedTaskMeta : TaskMeta :=
  { id := some "t1", title := some "T1", status := some "active",
    created_at := none, updated_at := none, due_date := none,
    priority := none, project_id := none, project_name := none,
    time_estimate_minutes := none, time_estimate_source := none,
    time_actual_minutes := none, calendar_event_id := none,
    scheduled_start := none, scheduled_end := none, context := none,
    completed_at := none, tags := ["home"], people_ids := [] }

/-- A vault holding exactly one well-formed task file. -/
def vaultOneTask : Vault :=
  ⟨[⟨"01-tasks/active/task-t1.md", some taggedTaskMeta⟩], [], [], []⟩

/-- The same vault with an additional task file whose metadata header
fails to parse. -/
def vaultWithMalformed : Vault :=
  ⟨[⟨"01-tasks/active/task-bad.md", none⟩,
    ⟨"01-tasks/active/task-t1.md", some taggedTaskMeta⟩], [], [], []⟩

/-- A completed task row linked to calendar event `e1`. -/
def completedTask : TaskRow :=
  { id := some "t1", title := some "Write report",
    status := some "completed", created_at := none, updated_at := none,
    due_date := none, priority := none, project_id := none,
    project_name := none, time_estimate_minutes := none,
    time_estimate_source := none, time_actual_minutes := none,
    calendar_event_id := some "e1", scheduled_start := none,
    scheduled_end := none, context := none,
    completed_at := some "2024-05-01T12:00:00",
    file_path := "01-tasks/completed/2024-05/task-t1.md" }

/-- The calendar-side event the completed task points at. -/
def calFixture : List GCalEvent := [⟨"e1", "Write report", "0"⟩]

/-- An active, not-yet-linked task row with id `t1`. -/
def unlinkedTask : TaskRow :=
  { completedTask with
    status := some "active", completed_at := none,
    calendar_event_id := none }

/-- A calendar event carrying the `Task ID: t1` marker and timed
`start`/`end` fields. -/
def markedEvent : CalEvent :=
  ⟨"e1", "Write report\nTask ID: t1",
    some "2024-05-01T09:00:00Z", some "2024-05-01T10:00:00Z"⟩

/-! ## Theorems -/

/-! ### C7 — session expiry boundary -/

/-- C7 counterexample: the claim says `get_session` returns `None`
whenever `now ≥ expires_at`, *including exact equality*; but at
`now = expires_at` the source's strict `datetime.now() > expires_at`
check fails and the stored session is returned. -/
theorem get_session_at_exact_expiry_returns_row :
    get_session convFixture "s1" noonDay1 = some sessionFixture ∧
    noonDay1 = sessionFixture.expires_at := ⟨rfl, rfl⟩

/-- C7 (amended): a stored session is live iff `now ≤ expires_at`:
`get_session` returns the stored row exactly when `now ≤ expires_at`,
returns `None` exactly when `now > expires_at` (strictly), and returns
`None` when no row with the id exists. -/
theorem get_session_live_iff_not_strictly_expired (st : ConvState)
    (sid : String) (now : DateTime) :
    (st.sessions.find? (fun r => r.session_id = sid) = none →
      get_session st sid now = none) ∧
    ∀ r, st.sessions.find? (fun r => r.session_id = sid) = some r →
      (get_session st sid now = some r ↔
        now.toSeconds ≤ r.expires_at.toSeconds) ∧
      (get_session st sid now = none ↔
        r.expires_at.toSeconds < now.toSeconds) := by
  constructor
  · intro h
    simp [get_session, h]
  · intro r hr
    by_cases hlt : r.expires_at.toSeconds < now.toSeconds
    · simp [get_session, hr, hlt]
    · simp [get_session, hr, hlt]
      omega

/-- Witness for C7's theorem at a concrete store: one second before
expiry the session is returned, one second after it is gone. -/
theorem get_session_live_iff_witness :
    get_session convFixture "s1" ⟨1, 1, 1, 11, 59, 59⟩
        = some sessionFixture ∧
    get_session convFixture "s1" ⟨1, 1, 1, 12, 0, 1⟩ = none := by
  have h1 := (get_session_live_iff_not_strictly_expired convFixture "s1"
    ⟨1, 1, 1, 11, 59, 59⟩).2 sessionFixture rfl
  have h2 := (get_session_live_iff_not_strictly_expired convFixture "s1"
    ⟨1, 1, 1, 12, 0, 1⟩).2 sessionFixture rfl
  exact ⟨h1.1.mpr (by decide), h2.2.mpr (by decide)⟩

/-! ### C10 — absent/expired sessions are at the message limit -/

/-- C10 counterexample: the claim counts a session with
`now = expires_at` as expired (the spec's expiry is `now ≥ expires_at`),
yet `is_at_message_limit` consults `get_session`, which still returns it,
and with `message_count = 0 < max_messages` the check answers `false`. -/
theorem is_at_message_limit_false_at_exact_expiry :
    is_at_message_limit 5 convFixture "s1" noonDay1 = false ∧
    noonDay1 = sessionFixture.expires_at ∧
    sessionFixture.message_count < 5 := ⟨rfl, rfl, by decide⟩

/-- C10 (amended): for a `session_id` with no stored row, or whose row is
strictly past expiry (`now > expires_at`), `is_at_message_limit` returns
`true` regardless of `message_count`; a session at exactly `expires_at`
is still consulted for its count. -/
theorem is_at_message_limit_absent_or_expired (max_messages : Nat)
    (st : ConvState) (sid : String) (now : DateTime)
    (h : st.sessions.find? (fun r => r.session_id = sid) = none ∨
      ∃ r, st.sessions.find? (fun r => r.session_id = sid) = some r ∧
        r.expires_at.toSeconds < now.toSeconds) :
    is_at_message_limit max_messages st sid now = true := by
  rcases h with h | ⟨r, hr, hlt⟩
  · simp [is_at_message_limit, get_session, h]
  · simp [is_at_message_limit, get_session, hr, hlt]

/-- Witness for C10's theorem: an unknown id and a strictly expired
session are both reported at-limit. -/
theorem is_at_message_limit_absent_or_expired_witness :
    is_at_message_limit 5 convFixture "nope" noonDay1 = true ∧
    is_at_message_limit 5 convFixture "s1" ⟨1, 1, 1, 12, 0, 1⟩ = true := by
  refine ⟨is_at_message_limit_absent_or_expired 5 convFixture "nope"
      noonDay1 (.inl (by rfl)), ?_⟩
  exact is_at_message_limit_absent_or_expired 5 convFixture "s1"
    ⟨1, 1, 1, 12, 0, 1⟩ (.inr ⟨sessionFixture, rfl, by decide⟩)

/-! ### C9 — `add_message` frame property -/

/-- C9: `add_message` appends exactly one message row; on the sessions
table it touches only rows with the given `session_id`, incrementing
`message_count` by exactly one and setting `updated_at`, while
`expires_at` and every identity/context field are unchanged; rows with a
different id are untouched. -/
theorem add_message_frame (st : ConvState)
    (sid role content mid : String) (now : DateTime) :
    (add_message st sid role content mid now).messages
        = st.messages ++ [⟨mid, sid, role, content, now⟩] ∧
    (add_message st sid role content mid now).sessions.length
        = st.sessions.length ∧
    ∀ i (h1 : i < st.sessions.length)
      (h2 : i < (add_message st sid role content mid now).sessions.length),
      ((st.sessions.get ⟨i, h1⟩).session_id = sid →
        ((add_message st sid role content mid now).sessions.get
            ⟨i, h2⟩).message_count
            = (st.sessions.get ⟨i, h1⟩).message_count + 1 ∧
        ((add_message st sid role content mid now).sessions.get
            ⟨i, h2⟩).updated_at = now ∧
        ((add_message st sid role content mid now).sessions.get
            ⟨i, h2⟩).expires_at = (st.sessions.get ⟨i, h1⟩).expires_at ∧
        ((add_message st sid role content mid now).sessions.get
            ⟨i, h2⟩).session_id = (st.sessions.get ⟨i, h1⟩).session_id ∧
        ((add_message st sid role content mid now).sessions.get
            ⟨i, h2⟩).telegram_user_id
            = (st.sessions.get ⟨i, h1⟩).telegram_user_id ∧
        ((add_message st sid role content mid now).sessions.get
            ⟨i, h2⟩).telegram_chat_id
            = (st.sessions.get ⟨i, h1⟩).telegram_chat_id ∧
        ((add_message st sid role content mid now).sessions.get
            ⟨i, h2⟩).created_at = (st.sessions.get ⟨i, h1⟩).created_at ∧
        ((add_message st sid role content mid now).sessions.get
            ⟨i, h2⟩).context_type
            = (st.sessions.get ⟨i, h1⟩).context_type ∧
        ((add_message st sid role content mid now).sessions.get
            ⟨i, h2⟩).context_data
            = (st.sessions.get ⟨i, h1⟩).context_data) ∧
      ((st.sessions.get ⟨i, h1⟩).session_id ≠ sid →
        (add_message st sid role content mid now).sessions.get ⟨i, h2⟩
          = st.sessions.get ⟨i, h1⟩) := by
  refine ⟨rfl, by simp [add_message], ?_⟩
  intro i h1 h2
  have hg : (add_message st sid role content mid now).sessions.get ⟨i, h2⟩
      = if (st.sessions.get ⟨i, h1⟩).session_id = sid then
          { st.sessions.get ⟨i, h1⟩ with
            message_count := (st.sessions.get ⟨i, h1⟩).message_count + 1,
            updated_at := now }
        else st.sessions.get ⟨i, h1⟩ := by
    simp [add_message, List.get_eq_getElem]
  constructor
  · intro hid
    rw [hg, if_pos hid]
    exact ⟨rfl, rfl, rfl, rfl, rfl, rfl, rfl, rfl, rfl⟩
  · intro hid
    rw [hg, if_neg hid]

/-- Witness for C9's theorem at the fixture store: the one stored
session's count goes from 0 to 1 and its expiry is untouched. -/
theorem add_message_frame_witness :
    ((add_message convFixture "s1" "user" "hi" "m1" addTime).sessions.get
        ⟨0, by decide⟩).message_count
      = (convFixture.sessions.get ⟨0, by decide⟩).message_count + 1 ∧
    ((add_message convFixture "s1" "user" "hi" "m1" addTime).sessions.get
        ⟨0, by decide⟩).expires_at
      = (convFixture.sessions.get ⟨0, by decide⟩).expires_at ∧
    (add_message convFixture "s1" "user" "hi" "m1" addTime).messages
      = [⟨"m1", "s1", "user", "hi", addTime⟩] := by
  have h := add_message_frame convFixture "s1" "user" "hi" "m1" addTime
  have h3 := (h.2.2 0 (by decide) (by decide)).1 (by rfl)
  exact ⟨h3.1, h3.2.2.1, h.1⟩

/-! ### C8 — escalation checks on missing/malformed `sent_at` -/

/-- C8 counterexample: the claim says a *malformed* `sent_at` also
short-circuits to no-escalation without raising, but a non-empty
unparseable `sent_at` reaches `datetime.fromisoformat`, which raises in
both escalation checks. -/
theorem escalation_raises_on_malformed_sent_at :
    needs_escalation [malformedNotification] "n3" checkTime = .error () ∧
    get_escalation_priority [malformedNotification] "n3" checkTime
      = .error () := ⟨rfl, rfl⟩

/-- C8 (amended): a *missing* (`NULL` or empty-string, i.e. falsy)
`sent_at` short-circuits both escalation checks to "no escalation
needed" (`false` / `"default"`) without raising; a malformed non-empty
`sent_at` instead raises out of `datetime.fromisoformat`. -/
theorem escalation_short_circuits_on_missing_sent_at
    (db : List NotificationRow) (nid : String) (now : DateTime)
    (n : NotificationRow) (hn : get_notification db nid = some n)
    (hs : truthyStr n.sent_at = false) :
    needs_escalation db nid now = .ok false ∧
    get_escalation_priority db nid now = .ok "default" := by
  match hsent : n.sent_at with
  | none =>
    constructor
    · simp [needs_escalation, hn, hsent]
    · simp [get_escalation_priority, hn, hsent]
  | some s =>
    have hempty : s = "" := by
      simp [truthyStr, hsent] at hs
      exact hs
    constructor
    · simp [needs_escalation, hn, hsent, hempty]
    · simp [get_escalation_priority, hn, hsent, hempty]

/-- Witness for C8's theorem: a tracked-but-unsent notification is
reported as needing no escalation at default priority. -/
theorem escalation_missing_sent_at_witness :
    needs_escalation [unsentNotification] "n2" checkTime = .ok false ∧
    get_escalation_priority [unsentNotification] "n2" checkTime
      = .ok "default" :=
  escalation_short_circuits_on_missing_sent_at [unsentNotification] "n2"
    checkTime unsentNotification rfl rfl

/-! ### C6 — escalation schedule and monotonicity -/

/-- C6: for a stored, unacknowledged notification whose `sent_at`
parses, `needs_escalation` holds exactly when at least 5 minutes have
elapsed; `get_escalation_priority` follows the elapsed-minutes ladder
`[0,5) ↦ "default"`, `[5,10) ↦ "high"`, `[10,∞) ↦ "urgent"`; and the
ladder is non-decreasing in elapsed time. -/
theorem escalation_schedule_correct (db : List NotificationRow)
    (nid : String) (now : DateTime) (n : NotificationRow) (s : String)
    (sent : DateTime) (hn : get_notification db nid = some n)
    (hack : truthyStr n.acknowledged_at = false)
    (hs : n.sent_at = some s) (hne : s ≠ "")
    (hp : fromisoformat s = some sent) :
    (needs_escalation db nid now = .ok true ↔
      5 ≤ elapsedMinutes now sent) ∧
    get_escalation_priority db nid now
      = .ok (priorityOfElapsed (elapsedMinutes now sent)) ∧
    (0 ≤ elapsedMinutes now sent → elapsedMinutes now sent < 5 →
      priorityOfElapsed (elapsedMinutes now sent) = "default") ∧
    (5 ≤ elapsedMinutes now sent → elapsedMinutes now sent < 10 →
      priorityOfElapsed (elapsedMinutes now sent) = "high") ∧
    (10 ≤ elapsedMinutes now sent →
      priorityOfElapsed (elapsedMinutes now sent) = "urgent") ∧
    ∀ e1 e2 : ℚ, e1 ≤ e2 →
      priorityRank (priorityOfElapsed e1)
        ≤ priorityRank (priorityOfElapsed e2) := by
  refine ⟨?_, ?_, ?_, ?_, ?_, ?_⟩
  · simp [needs_escalation, hn, hack, hs, hne, hp]
  · simp [get_escalation_priority, hn, hack, hs, hne, hp]
  · intro _ h5
    simp [priorityOfElapsed, h5]
  · intro h5 h10
    have : ¬ elapsedMinutes now sent < 5 := by linarith
    simp [priorityOfElapsed, this, h10]
  · intro h10
    have h5 : ¬ elapsedMinutes now sent < 5 := by linarith
    have h10' : ¬ elapsedMinutes now sent < 10 := by linarith
    simp [priorityOfElapsed, h5, h10']
  · intro e1 e2 h
    by_cases h2 : e2 < 5
    · have h1 : e1 < 5 := lt_of_le_of_lt h h2
      rw [show priorityOfElapsed e1 = "default" from by
            simp [priorityOfElapsed, h1],
          show priorityOfElapsed e2 = "default" from by
            simp [priorityOfElapsed, h2]]
    · by_cases h4 : e2 < 10
      · rw [show priorityOfElapsed e2 = "high" from by
              simp [priorityOfElapsed, h2, h4]]
        by_cases h1 : e1 < 5
        · rw [show priorityOfElapsed e1 = "default" from by
                simp [priorityOfElapsed, h1]]
          decide
        · have h3 : e1 < 10 := lt_of_le_of_lt h h4
          rw [show priorityOfElapsed e1 = "high" from by
                simp [priorityOfElapsed, h1, h3]]
      · rw [show priorityOfElapsed e2 = "urgent" from by
              simp [priorityOfElapsed, h2, h4]]
        by_cases h1 : e1 < 5
        · rw [show priorityOfElapsed e1 = "default" from by
                simp [priorityOfElapsed, h1]]
          decide
        · by_cases h3 : e1 < 10
          · rw [show priorityOfElapsed e1 = "high" from by
                  simp [priorityOfElapsed, h1, h3]]
            decide
          · rw [show priorityOfElapsed e1 = "urgent" from by
                  simp [priorityOfElapsed, h1, h3]]

/-- Witness for C6's theorem six minutes after sending: escalation is
needed and the priority is `"high"`. -/
theorem escalation_schedule_correct_witness :
    needs_escalation [sentNotification] "n1" checkTime = .ok true ∧
    get_escalation_priority [sentNotification] "n1" checkTime
      = .ok "high" := by
  have h := escalation_schedule_correct [sentNotification] "n1" checkTime
    sentNotification "0001-01-01T10:00:00" ⟨1, 1, 1, 10, 0, 0⟩
    rfl rfl rfl (by decide) (by decide)
  have he : elapsedMinutes checkTime ⟨1, 1, 1, 10, 0, 0⟩ = 6 := by
    norm_num [elapsedMinutes, DateTime.toSeconds, daysSinceEra, checkTime]
  refine ⟨h.1.mpr (by rw [he]; norm_num), ?_⟩
  refine h.2.1.trans (congrArg Except.ok ?_)
  rw [he]
  norm_num [priorityOfElapsed]

/-! ### C1 — slots never overlap busy intervals -/

/-- Every slot produced by the candidate walk was either in the
accumulator already or passed the full busy-interval scan, so it overlaps
no busy interval. -/
theorem findFreeSlotsGo_no_overlap (busy : List (Nat × Nat))
    (dur whs whe maxSlots tmax : Nat) :
    ∀ (fuel t : Nat) (acc : List FreeSlot) (s : FreeSlot),
      s ∈ findFreeSlotsGo busy dur whs whe maxSlots tmax fuel t acc →
      s ∈ acc ∨ ∀ b ∈ busy, ¬ (s.start < b.2 ∧ b.1 < s.stop) := by
  intro fuel
  induction fuel with
  | zero =>
    intro t acc s hs
    simp only [findFreeSlotsGo] at hs
    exact .inl hs
  | succ n ih =>
    intro t acc s hs
    simp only [findFreeSlotsGo] at hs
    split at hs
    · split at hs
      · exact ih _ _ _ hs
      · split at hs
        all_goals
          split at hs
          · exact ih _ _ _ hs
          · split at hs
            · exact ih _ _ _ hs
            · split at hs
              · exact ih _ _ _ hs
              · rcases ih _ _ _ hs with h | h
                · rcases List.mem_append.mp h with h' | h'
                  · exact .inl h'
                  · right
                    rcases List.mem_singleton.mp h' with rfl
                    intro b hb
                    have hnone := List.find?_eq_none.mp (by assumption) b hb
                    simp only [Bool.and_eq_true, decide_eq_true_eq,
                      not_and] at hnone
                    intro hcontra
                    exact hnone hcontra.1 hcontra.2
                · exact .inr h
    · exact .inl hs

/-- C1: every `FreeSlot` returned by `find_free_slots` satisfies
`NOT (s.start < b.end AND s.end > b.start)` for every busy interval `b`
of the queried pool. -/
theorem find_free_slots_no_overlap (busy : List (Nat × Nat))
    (dur tmin tmax whs whe maxSlots fuel : Nat) (s : FreeSlot)
    (hs : s ∈ find_free_slots busy dur tmin tmax whs whe maxSlots fuel) :
    ∀ b ∈ busy, ¬ (s.start < b.2 ∧ b.1 < s.stop) := by
  rcases findFreeSlotsGo_no_overlap busy dur whs whe maxSlots tmax fuel
      tmin [] s hs with h | h
  · simp at h
  · exact h

/-- Witness for C1 on the spec's own example scenario (busy 10:00–11:00,
work hours 9–17, 30-minute slots): the slot 09:45–10:15 would overlap,
and indeed the slot emitted after 09:30 is 11:00; the first returned slot
09:00–09:30 clears the busy interval. -/
theorem find_free_slots_no_overlap_witness :
    (⟨540, 570, 30⟩ : FreeSlot) ∈
      find_free_slots [(600, 660)] 30 540 1020 9 17 3 50 ∧
    ¬ ((540 : Nat) < 660 ∧ (600 : Nat) < 570) :=
  ⟨by decide,
   find_free_slots_no_overlap [(600, 660)] 30 540 1020 9 17 3 50
     ⟨540, 570, 30⟩ (by decide) (600, 660) (by decide)⟩

/-! ### C5 — work-hours containment fails across midnight -/

/-- C5 (code bug): with a 960-minute duration requested from Monday
09:00 (minute 540 of the timeline) over an empty busy pool, the guard
`slot_end.hour > work_hours_end or (slot_end.hour == work_hours_end and
slot_end.minute > 0)` is evaluated on the wrapped hour of 01:00 of the
*next day* and passes, so the returned slot ends on the following
calendar day — past the 17:00 work-hours end its own comment promises to
enforce.  (The start-hour, weekday and `max_slots` clauses of the claim
are not at issue in this run: the slot starts 09:00 Monday and one slot
is returned.) -/
theorem find_free_slots_escapes_work_hours :
    find_free_slots [] 960 540 2880 9 17 1 20 = [⟨540, 1500, 960⟩] ∧
    dayOf 1500 = dayOf 540 + 1 ∧
    hourOf 540 = 9 ∧ weekdayOf 540 = 0 := by
  refine ⟨by decide, by decide, by decide, by decide⟩

/-! ### C3 — rebuild is not idempotent: side tables accumulate -/

/-- C3 (code bug): `rebuild_index` clears `tasks`, `projects`, `people`
and `daily_logs` but not the `task_tags`/`task_people` side tables, while
`_index_tasks` re-inserts side rows on every run; rebuilding an unchanged
one-task vault twice leaves two identical `task_tags` rows for the single
(task, tag) pair, so the second rebuild's relational contents differ from
the first and the side table no longer has exactly one row per vault
file. -/
theorem rebuild_index_duplicates_side_rows :
    (rebuild_index vaultOneTask emptyDB).map DBState.task_tags
        = .ok [(some "t1", "home")] ∧
    ((rebuild_index vaultOneTask emptyDB).bind
          (rebuild_index vaultOneTask)).map DBState.task_tags
        = .ok [(some "t1", "home"), (some "t1", "home")] ∧
    (rebuild_index vaultOneTask emptyDB).map DBState.tasks
        = ((rebuild_index vaultOneTask emptyDB).bind
            (rebuild_index vaultOneTask)).map DBState.tasks :=
  ⟨rfl, rfl, rfl⟩

/-! ### C4 — a malformed task file aborts the whole rebuild -/

/-- C4 (code bug): `_index_tasks` has no per-file exception isolation, so
a vault containing a task file with an unparseable metadata header makes
`rebuild_index` raise instead of completing — even though the same vault
without the malformed file indexes its valid task — contradicting the
spec's required skip-and-report hardening. -/
theorem rebuild_index_aborts_on_malformed :
    rebuild_index vaultWithMalformed emptyDB = .error () ∧
    (rebuild_index vaultOneTask emptyDB).map
        (fun db => db.tasks.map TaskRow.id) = .ok [some "t1"] :=
  ⟨rfl, rfl⟩

/-! ### C2 — sync idempotence: helper lemmas -/

/-- `find?` commutes with a map whose function preserves the
predicate. -/
theorem find?_map_comm {α : Type} (g : α → α) (p : α → Bool)
    (hp : ∀ x, p (g x) = p x) :
    ∀ l : List α, (l.map g).find? p = (l.find? p).map g := by
  intro l
  induction l with
  | nil => rfl
  | cons x xs ih =>
    by_cases hx : p x = true
    · simp [List.find?, hp, hx]
    · rw [Bool.not_eq_true] at hx
      simp [List.find?, hp, hx, ih]

/-- An event failing a state-independent guard leaves any tasks table
unchanged and counts no update. -/
theorem sync_one_event_not_relevant (tasks : List TaskRow) (e : CalEvent)
    (h : relevant_task_id e = none) : sync_one_event tasks e = (tasks, 0) := by
  unfold sync_one_event
  unfold relevant_task_id at h
  by_cases h1 : ¬ containsTaskID e.description
  · rw [if_pos h1]
  · rw [if_neg h1]
    rw [if_neg h1] at h
    rcases hext : extract_task_id e.description with _ | tid
    · simp only [hext]
    · simp only [hext] at h ⊢
      by_cases h2 : tid = ""
      · rw [if_pos h2]
      · rw [if_neg h2] at h ⊢
        rcases hfind : tasks.find? (fun r => r.id = some tid) with _ | task
        · simp only [hfind]
        · simp only [hfind]
          rcases hsd : e.startDT with _ | es
          · simp only [hsd]
          · rcases hed : e.endDT with _ | ee
            · simp only [hsd, hed]
            · simp only [hsd, hed] at h ⊢
              split at h
              · rw [if_pos (by assumption)]
              · simp at h

/-- The state-independent guards a relevant event passed. -/
theorem relevant_task_id_spec (e : CalEvent) (tid : String)
    (h : relevant_task_id e = some tid) :
    (¬ ¬ containsTaskID e.description) ∧
    extract_task_id e.description = some tid ∧ tid ≠ "" ∧
    ∃ es ee, e.startDT = some es ∧ e.endDT = some ee ∧
      ¬ (es = "" ∨ ee = "") := by
  unfold relevant_task_id at h
  by_cases h1 : ¬ containsTaskID e.description
  · rw [if_pos h1] at h
    simp at h
  · rw [if_neg h1] at h
    rcases hext : extract_task_id e.description with _ | tid'
    · simp [hext] at h
    · simp only [hext] at h
      by_cases h2 : tid' = ""
      · rw [if_pos h2] at h
        simp at h
      · rw [if_neg h2] at h
        rcases hsd : e.startDT with _ | es
        · simp [hsd] at h
        · rcases hed : e.endDT with _ | ee
          · simp [hsd, hed] at h
          · simp only [hsd, hed] at h
            by_cases h3 : es = "" ∨ ee = ""
            · rw [if_pos h3] at h
              simp at h
            · rw [if_neg h3] at h
              obtain rfl : tid' = tid := by simpa using h
              exact ⟨h1, rfl, h2, es, ee, rfl, rfl, h3⟩

/-- Reduction of the per-event body for a relevant event: everything
after the guards is a function of the first matching task row. -/
theorem sync_one_event_relevant (tasks : List TaskRow) (e : CalEvent)
    (tid es ee : String) (h : relevant_task_id e = some tid)
    (hsd : e.startDT = some es) (hed : e.endDT = some ee) :
    sync_one_event tasks e =
      (match tasks.find? (fun r => r.id = some tid) with
       | none => (tasks, 0)
       | some task =>
         if task.scheduled_start ≠ some (isoRoundTrip es) ∨
            task.scheduled_end ≠ some (isoRoundTrip ee) ∨
            task.calendar_event_id ≠ some e.id then
           (tasks.map (apply_updates tid (isoRoundTrip es)
             (isoRoundTrip ee) e.id task), 1)
         else (tasks, 0)) := by
  obtain ⟨h1, hext, h2, es', ee', hsd', hed', h3⟩ :=
    relevant_task_id_spec e tid h
  obtain rfl : es' = es := by rw [hsd'] at hsd; exact (Option.some_inj.mp hsd)
  obtain rfl : ee' = ee := by rw [hed'] at hed; exact (Option.some_inj.mp hed)
  unfold sync_one_event
  rw [if_neg h1]
  simp only [hext]
  rw [if_neg h2]
  rcases hfind : tasks.find? (fun r => r.id = some tid) with _ | task
  · simp only [hfind, hsd', hed']
  · simp only [hfind, hsd', hed']
    rw [if_neg h3]

/-- A per-event step that counts no update leaves the table unchanged. -/
theorem sync_one_event_zero_state (tasks : List TaskRow) (e : CalEvent)
    (h : (sync_one_event tasks e).2 = 0) :
    (sync_one_event tasks e).1 = tasks := by
  rcases hrel : relevant_task_id e with _ | tid
  · rw [sync_one_event_not_relevant tasks e hrel]
  · obtain ⟨_, _, _, es, ee, hsd, hed, _⟩ := relevant_task_id_spec e tid hrel
    rw [sync_one_event_relevant tasks e tid es ee hrel hsd hed] at h ⊢
    rcases hfind : tasks.find? (fun r => r.id = some tid) with _ | task
    · simp only [hfind]
    · simp only [hfind] at h ⊢
      split at h
      · simp at h
      · rw [if_neg (by assumption)]

/-- `apply_updates` never changes a row's id. -/
theorem apply_updates_id (tid ns ne eid : String) (task : TaskRow) :
    ∀ r, (apply_updates tid ns ne eid task r).id = r.id := by
  intro r
  unfold apply_updates
  split <;> rfl

/-- `apply_updates` fixes rows whose id differs from the target. -/
theorem apply_updates_of_ne (tid ns ne eid : String) (task r : TaskRow)
    (h : ¬ r.id = some tid) : apply_updates tid ns ne eid task r = r := by
  unfold apply_updates
  rw [if_neg h]

/-- Applied to the mismatching first row itself, `apply_updates` makes
all three compared fields agree with the event. -/
theorem apply_updates_matches (tid ns ne eid : String) (task : TaskRow)
    (h : task.id = some tid) :
    (apply_updates tid ns ne eid task task).scheduled_start = some ns ∧
    (apply_updates tid ns ne eid task task).scheduled_end = some ne ∧
    (apply_updates tid ns ne eid task task).calendar_event_id
      = some eid := by
  unfold apply_updates
  rw [if_pos h]
  refine ⟨?_, ?_, ?_⟩
  · by_cases hS : task.scheduled_start ≠ some ns
    · simp [hS]
    · simp only [not_not] at hS
      simp [hS]
  · by_cases hE : task.scheduled_end ≠ some ne
    · simp [hE]
    · simp only [not_not] at hE
      simp [hE]
  · by_cases hC : task.calendar_event_id ≠ some eid
    · simp [hC]
    · simp only [not_not] at hC
      simp [hC]

/-- Processing the same event twice in a row is absorbing: the second
step counts nothing and leaves the table as the first step left it. -/
theorem sync_one_event_self (tasks : List TaskRow) (e : CalEvent) :
    sync_one_event ((sync_one_event tasks e).1) e
      = ((sync_one_event tasks e).1, 0) := by
  rcases hrel : relevant_task_id e with _ | tid
  · rw [sync_one_event_not_relevant tasks e hrel]
    exact sync_one_event_not_relevant tasks e hrel
  · obtain ⟨_, _, _, es, ee, hsd, hed, _⟩ := relevant_task_id_spec e tid hrel
    rw [sync_one_event_relevant tasks e tid es ee hrel hsd hed]
    rcases hfind : tasks.find? (fun r => r.id = some tid) with _ | task
    · simp only [hfind]
      rw [sync_one_event_relevant tasks e tid es ee hrel hsd hed]
      simp only [hfind]
    · simp only [hfind]
      by_cases hmis : task.scheduled_start ≠ some (isoRoundTrip es) ∨
          task.scheduled_end ≠ some (isoRoundTrip ee) ∨
          task.calendar_event_id ≠ some e.id
      · rw [if_pos hmis]
        rw [sync_one_event_relevant _ e tid es ee hrel hsd hed]
        have hid : task.id = some tid := by
          have := List.find?_some hfind
          simpa using this
        have hcomm := find?_map_comm
          (apply_updates tid (isoRoundTrip es) (isoRoundTrip ee) e.id task)
          (fun r => r.id = some tid)
          (fun r => by simp [apply_updates_id]) tasks
        simp only [hcomm, hfind, Option.map_some']
        obtain ⟨hS, hE, hC⟩ := apply_updates_matches tid (isoRoundTrip es)
          (isoRoundTrip ee) e.id task hid
        rw [if_neg]
        simp [hS, hE, hC]
      · rw [if_neg hmis]
        rw [sync_one_event_relevant tasks e tid es ee hrel hsd hed]
        simp only [hfind]
        rw [if_neg hmis]

/-- One per-event step does not disturb the first match for any other
task id. -/
theorem sync_one_event_find?_other (tasks : List TaskRow) (e : CalEvent)
    (tid' : String) (h : relevant_task_id e ≠ some tid') :
    ((sync_one_event tasks e).1).find? (fun r => r.id = some tid')
      = tasks.find? (fun r => r.id = some tid') := by
  rcases hrel : relevant_task_id e with _ | tid
  · rw [sync_one_event_not_relevant tasks e hrel]
  · have hne : tid ≠ tid' := by
      intro hcontra
      exact h (hcontra ▸ hrel)
    obtain ⟨_, _, _, es, ee, hsd, hed, _⟩ := relevant_task_id_spec e tid hrel
    rw [sync_one_event_relevant tasks e tid es ee hrel hsd hed]
    rcases hfind : tasks.find? (fun r => r.id = some tid) with _ | task
    · simp only [hfind]
    · simp only [hfind]
      by_cases hmis : task.scheduled_start ≠ some (isoRoundTrip es) ∨
          task.scheduled_end ≠ some (isoRoundTrip ee) ∨
          task.calendar_event_id ≠ some e.id
      · rw [if_pos hmis]
        have hcomm := find?_map_comm
          (apply_updates tid (isoRoundTrip es) (isoRoundTrip ee) e.id task)
          (fun r => r.id = some tid')
          (fun r => by simp [apply_updates_id]) tasks
        simp only [hcomm]
        rcases hf' : tasks.find? (fun r => r.id = some tid') with _ | r
        · simp [hf']
        · have hrid : r.id = some tid' := by
            have := List.find?_some hf'
            simpa using this
          simp only [hf', Option.map_some']
          rw [apply_updates_of_ne]
          rw [hrid]
          intro hcontra
          exact hne (by simpa using hcontra.symm)
      · rw [if_neg hmis]

/-- The pass's fold threads its counter additively. -/
theorem sync_fold_shift :
    ∀ (events : List CalEvent) (tasks : List TaskRow) (c : Nat),
      events.foldl (fun st e =>
          let r := sync_one_event st.1 e
          (r.1, st.2 + r.2)) (tasks, c)
        = ((sync_calendar_to_tasks events tasks).1,
           c + (sync_calendar_to_tasks events tasks).2) := by
  intro events
  induction events with
  | nil =>
    intro tasks c
    simp [sync_calendar_to_tasks]
  | cons e rest ih =>
    intro tasks c
    simp only [sync_calendar_to_tasks, List.foldl_cons]
    rw [ih ((sync_one_event tasks e).1) (c + (sync_one_event tasks e).2),
        ih ((sync_one_event tasks e).1) (0 + (sync_one_event tasks e).2)]
    refine Prod.ext rfl ?_
    simp only []
    omega

/-- Unfolding one event from the head of a pass. -/
theorem sync_calendar_to_tasks_cons (e : CalEvent) (rest : List CalEvent)
    (tasks : List TaskRow) :
    sync_calendar_to_tasks (e :: rest) tasks
      = ((sync_calendar_to_tasks rest (sync_one_event tasks e).1).1,
         (sync_one_event tasks e).2 +
           (sync_calendar_to_tasks rest (sync_one_event tasks e).1).2) := by
  simp only [sync_calendar_to_tasks, List.foldl_cons]
  rw [show ((0 : Nat) + (sync_one_event tasks e).2)
        = (sync_one_event tasks e).2 from by omega] at *
  have := sync_fold_shift rest ((sync_one_event tasks e).1)
    (sync_one_event tasks e).2
  simpa [sync_calendar_to_tasks] using this

/-- A pass over events that are all settled for the current table leaves
it unchanged and counts nothing. -/
theorem sync_pass_of_settled :
    ∀ (events : List CalEvent) (tasks : List TaskRow),
      (∀ e ∈ events, sync_one_event tasks e = (tasks, 0)) →
      sync_calendar_to_tasks events tasks = (tasks, 0) := by
  intro events
  induction events with
  | nil =>
    intro tasks _
    simp [sync_calendar_to_tasks]
  | cons e rest ih =>
    intro tasks h
    rw [sync_calendar_to_tasks_cons, h e (List.mem_cons_self e rest),
        ih tasks (fun e' he' => h e' (List.mem_cons_of_mem e he'))]
    rfl

/-- Settledness of an event survives a step of any event that does not
target the same task id. -/
theorem settled_after_step (tasks : List TaskRow) (e' e0 : CalEvent)
    (tid0 : String) (hrel : relevant_task_id e0 = some tid0)
    (hne : relevant_task_id e' ≠ some tid0)
    (hsett : sync_one_event tasks e0 = (tasks, 0)) :
    sync_one_event ((sync_one_event tasks e').1) e0
      = ((sync_one_event tasks e').1, 0) := by
  obtain ⟨_, _, _, es, ee, hsd, hed, _⟩ := relevant_task_id_spec e0 tid0 hrel
  have hstab := sync_one_event_find?_other tasks e' tid0 hne
  rw [sync_one_event_relevant _ e0 tid0 es ee hrel hsd hed, hstab]
  rw [sync_one_event_relevant tasks e0 tid0 es ee hrel hsd hed] at hsett
  rcases hfind : tasks.find? (fun r => r.id = some tid0) with _ | task
  · simp only [hfind]
  · simp only [hfind] at hsett ⊢
    by_cases hmis : task.scheduled_start ≠ some (isoRoundTrip es) ∨
        task.scheduled_end ≠ some (isoRoundTrip ee) ∨
        task.calendar_event_id ≠ some e0.id
    · rw [if_pos hmis] at hsett
      exact absurd (congrArg Prod.snd hsett) (by simp)
    · rw [if_neg hmis]

/-- Settledness survives a whole pass of events that do not target the
same task id. -/
theorem settled_after_pass :
    ∀ (events : List CalEvent) (tasks : List TaskRow) (e0 : CalEvent)
      (tid0 : String), relevant_task_id e0 = some tid0 →
      (∀ e' ∈ events, relevant_task_id e' ≠ some tid0) →
      sync_one_event tasks e0 = (tasks, 0) →
      sync_one_event ((sync_calendar_to_tasks events tasks).1) e0
        = ((sync_calendar_to_tasks events tasks).1, 0) := by
  intro events
  induction events with
  | nil =>
    intro tasks e0 tid0 _ _ hsett
    simpa [sync_calendar_to_tasks] using hsett
  | cons e' rest ih =>
    intro tasks e0 tid0 hrel hothers hsett
    rw [sync_calendar_to_tasks_cons]
    exact ih ((sync_one_event tasks e').1) e0 tid0 hrel
      (fun x hx => hothers x (List.mem_cons_of_mem e' hx))
      (settled_after_step tasks e' e0 tid0 hrel
        (hothers e' (List.mem_cons_self e' rest)) hsett)

/-- After one full pass with pairwise-distinct targeted task ids, every
event of the pass is settled for the resulting table. -/
theorem sync_pass_settles :
    ∀ (events : List CalEvent) (tasks : List TaskRow),
      (events.filterMap relevant_task_id).Nodup →
      ∀ e ∈ events,
        sync_one_event ((sync_calendar_to_tasks events tasks).1) e
          = ((sync_calendar_to_tasks events tasks).1, 0) := by
  intro events
  induction events with
  | nil =>
    intro tasks _ e he
    simp at he
  | cons e1 rest ih =>
    intro tasks hnd e he
    rw [sync_calendar_to_tasks_cons]
    rcases List.mem_cons.mp he with rfl | hmem
    · rcases hrel : relevant_task_id e with _ | tid
      · exact sync_one_event_not_relevant _ e hrel
      · have hothers : ∀ e' ∈ rest, relevant_task_id e' ≠ some tid := by
          intro e' he' hcontra
          have hmemf : tid ∈ rest.filterMap relevant_task_id :=
            List.mem_filterMap.mpr ⟨e', he', hcontra⟩
          have : (List.filterMap relevant_task_id (e :: rest)).Nodup := hnd
          rw [List.filterMap_cons, hrel] at this
          exact (List.nodup_cons.mp this).1 hmemf
        exact settled_after_pass rest ((sync_one_event tasks e).1) e tid
          hrel hothers (sync_one_event_self tasks e)
    · have hndr : (rest.filterMap relevant_task_id).Nodup := by
        have := hnd
        rw [List.filterMap_cons] at this
        rcases hrel : relevant_task_id e1 with _ | tid
        · rwa [hrel] at this
        · rw [hrel] at this
          exact (List.nodup_cons.mp this).2
      exact ih ((sync_one_event tasks e1).1) hndr e hmem

/-! ### C2 — sync idempotence -/

/-- C2 counterexample: one completed task linked to an existing event;
the second `run_bidirectional_sync` with no external change still
reports one `tasks_to_calendar` update (the completed-task event rewrite
is re-performed and re-counted on every run), so the second run does not
report zero updates. -/
theorem run_bidirectional_sync_repeats_updates :
    (run_bidirectional_sync [] [completedTask] calFixture).2 = (0, 1) ∧
    (run_bidirectional_sync []
        (run_bidirectional_sync [] [completedTask] calFixture).1.1
        (run_bidirectional_sync [] [completedTask] calFixture).1.2).2
      = (0, 1) := by
  refine ⟨by decide, by decide⟩

/-- C2 (amended): the calendar→task half-pass is idempotent — re-running
`sync_calendar_to_tasks` on an unchanged event window performs zero
updates and leaves the tasks table unchanged, provided no two events of
the window carry the same `Task ID` marker; the task→calendar half-pass
(and hence `run_bidirectional_sync`) is not update-free on the second
run, because completed linked tasks are re-updated and re-counted every
run. -/
theorem sync_calendar_to_tasks_second_run_zero (events : List CalEvent)
    (tasks : List TaskRow)
    (h : (events.filterMap relevant_task_id).Nodup) :
    sync_calendar_to_tasks events
        (sync_calendar_to_tasks events tasks).1
      = ((sync_calendar_to_tasks events tasks).1, 0) :=
  sync_pass_of_settled events (sync_calendar_to_tasks events tasks).1
    (fun e he => sync_pass_settles events tasks h e he)

/-- Witness for C2's amended theorem: a window with one marked event
updates the task once on the first pass and zero times on the second. -/
theorem sync_calendar_second_run_zero_witness :
    (sync_calendar_to_tasks [markedEvent] [unlinkedTask]).2 = 1 ∧
    (sync_calendar_to_tasks [markedEvent]
        (sync_calendar_to_tasks [markedEvent] [unlinkedTask]).1).2 = 0 := by
  have h := sync_calendar_to_tasks_second_run_zero [markedEvent]
    [unlinkedTask] (by decide)
  exact ⟨by decide, by rw [h]⟩

end ProductivityBot
